import Mathlib

/-!
Verification of the Auravia coming-soon server (server.js).

The server keeps a single table `email_subscribers`; we model it as a
`List Subscriber` and each HTTP handler as a pure function from the store
(plus the request data and the nondeterministic inputs: current time,
freshly generated tokens, next id, and a possible database error on the
INSERT) to a response together with the updated store.
-/

/-- One row of the `email_subscribers` table (server.js lines 79-89). -/
structure Subscriber where
  id : Nat
  email : String
  subscribedAt : Int
  ipAddress : String
  userAgent : String
  isActive : Bool
  confirmed : Bool
  confirmationToken : String
  unsubscribeToken : String
deriving DecidableEq

/-- An HTTP response: status code, the `success` flag of the JSON body (for
the HTML endpoints we keep `success` as `status = 200`), and the message. -/
structure Response where
  status : Nat
  success : Bool
  message : String
deriving DecidableEq

/-- `validator.escape` applied to one character: the HTML entities that the
validator library substitutes (ampersand, double quote, single quote, angle
brackets, slash, backslash, backtick). -/
def escapeChar (c : Char) : String :=
  if c = '&' then "&amp;"
  else if c = '"' then "&quot;"
  else if c = '\x27' then "&#x27;"
  else if c = '<' then "&lt;"
  else if c = '>' then "&gt;"
  else if c = '/' then "&#x2F;"
  else if c = '\\' then "&#x5C;"
  else if c = '\x60' then "&#96;"
  else String.singleton c

/-- `validator.escape`: every special character is replaced by its HTML
entity (the replacement entities themselves are never re-escaped, so a
character-wise map is exact). -/
def escapeString (s : String) : String :=
  String.join (s.data.map escapeChar)

/-- A character that `String.prototype.trim` removes: ECMAScript
WhiteSpace (tab, VT, FF, space, NBSP, BOM and the Unicode space
separators) or a LineTerminator (LF, CR, LS, PS). -/
def isJsTrimmed (c : Char) : Bool :=
  c == '\x09' || c == '\x0a' || c == '\x0b' || c == '\x0c' || c == '\x0d' ||
  c == ' ' || c == '\xa0' || c == '\u2028' || c == '\u2029' ||
  c == '\ufeff' || c == '\u1680' || (('\u2000' ≤ c && c ≤ '\u200a') : Bool) ||
  c == '\u202f' || c == '\u205f' || c == '\u3000'

/-- `String.prototype.trim`: drop trimmed characters from both ends. -/
def jsTrim (l : List Char) : List Char :=
  (((l.dropWhile isJsTrimmed).reverse.dropWhile isJsTrimmed).reverse)

/-- `sanitizeEmail` (server.js line 105-107):
`validator.escape(email.toLowerCase().trim())`.  Lower-casing is
character-wise (`Char.toLower`, which covers the ASCII range relevant to
email addresses). -/
def sanitizeEmail (email : String) : String :=
  escapeString (String.mk (jsTrim (email.data.map Char.toLower)))

/-- `validateEmail` (server.js line 109-111):
`validator.isEmail(email) && email.length <= 255`.  The syntactic check
`validator.isEmail` is third-party library code, so it enters the model as
an abstract boolean predicate `isEmail`. -/
def validateEmail (isEmail : String → Bool) (email : String) : Bool :=
  isEmail email && decide (email.length ≤ 255)

def msgRequired : String := "Email address is required."
def msgInvalid : String := "Please enter a valid email address."
def msgAlreadySubscribed : String :=
  "This email is already subscribed to our newsletter."
def msgWelcomeBack : String :=
  "Welcome back! You\x27ve been resubscribed to our newsletter."
def msgThanks : String :=
  "Thank you! You\x27ll be notified when Auravia launches."
def msgDuplicateCaught : String := "This email is already subscribed."
def msgServerError : String := "Something went wrong. Please try again later."

/-- The record inserted by the INSERT of server.js lines 166-174: email,
ip, user agent and confirmation token are given; `is_active` defaults to
true, `confirmed` to false, `subscribed_at` to the current timestamp, and
`unsubscribe_token` to a fresh uuid. -/
def newSubscriber (sanitizedEmail ip ua : String) (now : Int)
    (confToken unsubToken : String) (newId : Nat) : Subscriber :=
  { id := newId, email := sanitizedEmail, subscribedAt := now,
    ipAddress := ip, userAgent := ua, isActive := true, confirmed := false,
    confirmationToken := confToken, unsubscribeToken := unsubToken }

/-- The row update performed by the UPDATE of server.js lines 151-154 on
each row whose email matches. -/
def reactivateRow (sanitizedEmail : String) (now : Int) (r : Subscriber) :
    Subscriber :=
  if r.email == sanitizedEmail then
    { r with isActive := true, subscribedAt := now }
  else r

/-- `POST /api/subscribe` (server.js lines 116-199).  `email` is the body
field (`none` models an absent field; the empty string is also falsy in
`if (!email)`).  `insertError` is the error code with which the INSERT
fails, if it does (`none` means the INSERT succeeds); the catch block maps
code 23505 (unique violation) to 409 and anything else to 500. -/
def subscribe (isEmail : String → Bool) (store : List Subscriber)
    (email : Option String) (ip ua : String) (now : Int)
    (confToken unsubToken : String) (newId : Nat)
    (insertError : Option String) : Response × List Subscriber :=
  match email with
  | none => (⟨400, false, msgRequired⟩, store)
  | some e =>
    if e = "" then (⟨400, false, msgRequired⟩, store)
    else
      let sanitizedEmail := sanitizeEmail e
      if validateEmail isEmail sanitizedEmail = false then
        (⟨400, false, msgInvalid⟩, store)
      else
        match store.find? (fun r => r.email == sanitizedEmail) with
        | some row =>
          if row.isActive then
            (⟨409, false, msgAlreadySubscribed⟩, store)
          else
            (⟨200, true, msgWelcomeBack⟩,
              store.map (reactivateRow sanitizedEmail now))
        | none =>
          match insertError with
          | some code =>
            if code == "23505" then (⟨409, false, msgDuplicateCaught⟩, store)
            else (⟨500, false, msgServerError⟩, store)
          | none =>
            (⟨201, true, msgThanks⟩,
              store ++ [newSubscriber sanitizedEmail ip ua now confToken
                          unsubToken newId])

/-- `GET /api/unsubscribe/:token` (server.js lines 253-293).  The UPDATE
sets `is_active = false` on every row whose `unsubscribe_token` equals the
token (the WHERE clause does not mention `is_active`) and RETURNING yields
the matched emails; the handler sends the 404 page exactly when zero rows
were returned, and the success page otherwise. -/
def unsubscribe (store : List Subscriber) (token : String) :
    Response × List Subscriber :=
  let updated := store.map (fun r =>
    if r.unsubscribeToken == token then { r with isActive := false } else r)
  let returnedEmails :=
    (store.filter (fun r => r.unsubscribeToken == token)).map
      (fun r => r.email)
  if returnedEmails.length = 0 then
    (⟨404, false, "Invalid Unsubscribe Link"⟩, updated)
  else
    (⟨200, true, "Successfully Unsubscribed"⟩, updated)

/-- The six aggregates returned by `GET /api/stats` (server.js 204-213). -/
structure Stats where
  total_subscribers : Nat
  active_subscribers : Nat
  confirmed_subscribers : Nat
  today_signups : Nat
  week_signups : Nat
  month_signups : Nat
deriving DecidableEq

/-- One row's contribution to the aggregate scan: `COUNT(*)` counts the
row always, each `COUNT(*) FILTER (WHERE p)` counts it when `p` holds.
Timestamps are measured in days, `currentDate` is the start of the server's
current day, and the SQL cutoffs are `CURRENT_DATE`, `CURRENT_DATE -
INTERVAL '7 days'` and `CURRENT_DATE - INTERVAL '30 days'`. -/
def statsStep (currentDate : Int) (acc : Stats) (r : Subscriber) : Stats :=
  { total_subscribers := acc.total_subscribers + 1,
    active_subscribers :=
      acc.active_subscribers + (if r.isActive then 1 else 0),
    confirmed_subscribers :=
      acc.confirmed_subscribers + (if r.confirmed then 1 else 0),
    today_signups :=
      acc.today_signups + (if currentDate ≤ r.subscribedAt then 1 else 0),
    week_signups :=
      acc.week_signups + (if currentDate - 7 ≤ r.subscribedAt then 1 else 0),
    month_signups :=
      acc.month_signups +
        (if currentDate - 30 ≤ r.subscribedAt then 1 else 0) }

/-- `GET /api/stats` (server.js lines 202-226): a single read-only scan of
the table accumulating the six counters; no store is returned because the
query modifies nothing. -/
def statsQuery (store : List Subscriber) (currentDate : Int) : Stats :=
  store.foldl (statsStep currentDate) ⟨0, 0, 0, 0, 0, 0⟩

/-! Concrete fixtures used to instantiate the theorems below. -/

/-- A concrete stand-in for `validator.isEmail`, accepting the two
addresses used by the fixtures. -/
def wIsEmail : String → Bool := fun s => s == "a@b.com" || s == "c@d.com"

/-- A stored subscriber that is currently active. -/
def wActive : Subscriber :=
  ⟨1, "a@b.com", 0, "1.2.3.4", "UA", true, false, "c0", "tok1"⟩

/-- The same subscriber after an unsubscribe: inactive, token intact. -/
def wInactive : Subscriber :=
  ⟨1, "a@b.com", 0, "1.2.3.4", "UA", false, false, "c0", "tok1"⟩

/-! General list lemmas used by the endpoint proofs. -/

/-- In a list containing exactly one element satisfying `p`, `find? p`
returns any member satisfying `p`. -/
theorem find?_unique_mem {α : Type} {p : α → Bool} {l : List α} {r : α}
    (hmem : r ∈ l) (hp : p r = true) (hone : l.countP p = 1) :
    l.find? p = some r := by
  induction l with
  | nil => cases hmem
  | cons a t ih =>
    cases hpa : p a with
    | false =>
      rw [List.find?_cons_of_neg _ (by simp [hpa])]
      rcases List.mem_cons.mp hmem with h | h
      · exfalso
        rw [← h, hp] at hpa
        exact Bool.noConfusion hpa
      · refine ih h ?_
        simpa [List.countP_cons, hpa] using hone
    | true =>
      rw [List.find?_cons_of_pos _ hpa]
      rcases List.mem_cons.mp hmem with h | h
      · rw [h]
      · exfalso
        have ht : 0 < t.countP p := List.countP_pos_iff.mpr ⟨r, h, hp⟩
        have h1 : t.countP p + 1 = 1 := by
          simpa [List.countP_cons, hpa] using hone
        omega

/-- A map by a function that fixes every member is the identity. -/
theorem map_eq_self_of_eq {α : Type} {f : α → α} {l : List α}
    (h : ∀ a ∈ l, f a = a) : l.map f = l := by
  induction l with
  | nil => rfl
  | cons a t ih =>
    simp [h a (List.mem_cons_self a t),
      ih (fun b hb => h b (List.mem_cons_of_mem a hb))]

/-- `countP` only depends on the values of the predicate on the list. -/
theorem countP_ext {α : Type} {p q : α → Bool} {l : List α}
    (h : ∀ a ∈ l, p a = q a) : l.countP p = l.countP q := by
  induction l with
  | nil => rfl
  | cons a t ih =>
    simp [List.countP_cons, h a (List.mem_cons_self a t),
      ih (fun b hb => h b (List.mem_cons_of_mem a hb))]

/-! Facts about the single-row update of the reactivation UPDATE. -/

/-- The reactivation UPDATE touches no column except `is_active` and
`subscribed_at`. -/
theorem reactivateRow_fields (se : String) (now : Int) (r : Subscriber) :
    (reactivateRow se now r).id = r.id ∧
    (reactivateRow se now r).email = r.email ∧
    (reactivateRow se now r).ipAddress = r.ipAddress ∧
    (reactivateRow se now r).userAgent = r.userAgent ∧
    (reactivateRow se now r).confirmed = r.confirmed ∧
    (reactivateRow se now r).confirmationToken = r.confirmationToken ∧
    (reactivateRow se now r).unsubscribeToken = r.unsubscribeToken := by
  unfold reactivateRow
  split <;> exact ⟨rfl, rfl, rfl, rfl, rfl, rfl, rfl⟩

/-- A row whose email differs from the WHERE value is left unchanged. -/
theorem reactivateRow_of_ne (se : String) (now : Int) (r : Subscriber)
    (h : r.email ≠ se) : reactivateRow se now r = r := by
  unfold reactivateRow
  rw [if_neg (by simp [h])]

/-- A row whose email matches the WHERE value gets `is_active = true` and a
fresh `subscribed_at`. -/
theorem reactivateRow_of_eq (se : String) (now : Int) (r : Subscriber)
    (h : r.email = se) :
    reactivateRow se now r =
      { r with isActive := true, subscribedAt := now } := by
  unfold reactivateRow
  rw [if_pos (by simp [h])]

/-! Path equations for `POST /api/subscribe`. -/

/-- Missing email field: the handler returns 400 before touching the
store. -/
theorem subscribe_missing_eq (isEmail : String → Bool)
    (store : List Subscriber) (ip ua : String) (now : Int) (ct ut : String)
    (nid : Nat) (ierr : Option String) :
    subscribe isEmail store none ip ua now ct ut nid ierr =
      (⟨400, false, msgRequired⟩, store) := rfl

/-- Empty email string: falsy in `if (!email)`, same 400. -/
theorem subscribe_empty_eq (isEmail : String → Bool)
    (store : List Subscriber) (e ip ua : String) (now : Int) (ct ut : String)
    (nid : Nat) (ierr : Option String) (he : e = "") :
    subscribe isEmail store (some e) ip ua now ct ut nid ierr =
      (⟨400, false, msgRequired⟩, store) := by
  simp only [subscribe]
  rw [if_pos he]

/-- Failed validation: 400, store untouched. -/
theorem subscribe_invalid_eq (isEmail : String → Bool)
    (store : List Subscriber) (e ip ua : String) (now : Int) (ct ut : String)
    (nid : Nat) (ierr : Option String) (hne : e ≠ "")
    (hv : validateEmail isEmail (sanitizeEmail e) = false) :
    subscribe isEmail store (some e) ip ua now ct ut nid ierr =
      (⟨400, false, msgInvalid⟩, store) := by
  simp only [subscribe]
  rw [if_neg hne, if_pos hv]

/-- Existing active row: 409, store untouched. -/
theorem subscribe_conflict_eq (isEmail : String → Bool)
    (store : List Subscriber) (e ip ua : String) (now : Int) (ct ut : String)
    (nid : Nat) (ierr : Option String) (row : Subscriber) (hne : e ≠ "")
    (hv : validateEmail isEmail (sanitizeEmail e) = true)
    (hfind : store.find? (fun r => r.email == sanitizeEmail e) = some row)
    (hact : row.isActive = true) :
    subscribe isEmail store (some e) ip ua now ct ut nid ierr =
      (⟨409, false, msgAlreadySubscribed⟩, store) := by
  simp only [subscribe]
  rw [if_neg hne, if_neg (by simp [hv]), hfind]
  simp [hact]

/-- Existing inactive row: 200 and the reactivation UPDATE. -/
theorem subscribe_reactivate_eq (isEmail : String → Bool)
    (store : List Subscriber) (e ip ua : String) (now : Int) (ct ut : String)
    (nid : Nat) (ierr : Option String) (row : Subscriber) (hne : e ≠ "")
    (hv : validateEmail isEmail (sanitizeEmail e) = true)
    (hfind : store.find? (fun r => r.email == sanitizeEmail e) = some row)
    (hact : row.isActive = false) :
    subscribe isEmail store (some e) ip ua now ct ut nid ierr =
      (⟨200, true, msgWelcomeBack⟩,
        store.map (reactivateRow (sanitizeEmail e) now)) := by
  simp only [subscribe]
  rw [if_neg hne, if_neg (by simp [hv]), hfind]
  simp [hact]

/-- No existing row and a successful INSERT: 201 and the new row. -/
theorem subscribe_insert_eq (isEmail : String → Bool)
    (store : List Subscriber) (e ip ua : String) (now : Int) (ct ut : String)
    (nid : Nat) (hne : e ≠ "")
    (hv : validateEmail isEmail (sanitizeEmail e) = true)
    (hfind : store.find? (fun r => r.email == sanitizeEmail e) = none) :
    subscribe isEmail store (some e) ip ua now ct ut nid none =
      (⟨201, true, msgThanks⟩,
        store ++ [newSubscriber (sanitizeEmail e) ip ua now ct ut nid]) := by
  simp only [subscribe]
  rw [if_neg hne, if_neg (by simp [hv]), hfind]

/-- No existing row and an INSERT failing with the unique-violation code
23505: the catch block answers 409 and the store is unchanged. -/
theorem subscribe_race_eq (isEmail : String → Bool)
    (store : List Subscriber) (e ip ua : String) (now : Int) (ct ut : String)
    (nid : Nat) (hne : e ≠ "")
    (hv : validateEmail isEmail (sanitizeEmail e) = true)
    (hfind : store.find? (fun r => r.email == sanitizeEmail e) = none) :
    subscribe isEmail store (some e) ip ua now ct ut nid (some "23505") =
      (⟨409, false, msgDuplicateCaught⟩, store) := by
  simp only [subscribe]
  rw [if_neg hne, if_neg (by simp [hv]), hfind]
  simp

/-- No existing row and a failing INSERT with an arbitrary error code: the
catch block distinguishes the unique-violation code 23505 (409) from every
other failure (500); the store is unchanged either way. -/
theorem subscribe_insert_err_eq (isEmail : String → Bool)
    (store : List Subscriber) (e ip ua : String) (now : Int) (ct ut : String)
    (nid : Nat) (code : String) (hne : e ≠ "")
    (hv : validateEmail isEmail (sanitizeEmail e) = true)
    (hfind : store.find? (fun r => r.email == sanitizeEmail e) = none) :
    subscribe isEmail store (some e) ip ua now ct ut nid (some code) =
      ((if code == "23505" then ⟨409, false, msgDuplicateCaught⟩
        else ⟨500, false, msgServerError⟩ : Response), store) := by
  simp only [subscribe]
  rw [if_neg hne, if_neg (by simp [hv]), hfind]
  by_cases hc : (code == "23505") = true
  · rw [if_pos hc, if_pos hc]
  · rw [if_neg hc, if_neg hc]

/-! Path equations for `GET /api/unsubscribe/:token`. -/

/-- Whatever the response, the store after the handler is the result of
the UPDATE (which is a no-op on rows whose token differs). -/
theorem unsubscribe_store_eq (store : List Subscriber) (token : String) :
    (unsubscribe store token).2 =
      store.map (fun r =>
        if r.unsubscribeToken == token then { r with isActive := false }
        else r) := by
  simp only [unsubscribe]
  split <;> rfl

/-- When some row carries the token, RETURNING is nonempty and the handler
sends the success page. -/
theorem unsubscribe_matched_eq (store : List Subscriber) (token : String)
    (r : Subscriber) (hmem : r ∈ store)
    (htok : r.unsubscribeToken = token) :
    (unsubscribe store token).1 =
      ⟨200, true, "Successfully Unsubscribed"⟩ := by
  have hr : r ∈ store.filter (fun s => s.unsubscribeToken == token) :=
    List.mem_filter.mpr ⟨hmem, by simp [htok]⟩
  have hne2 : store.filter (fun s => s.unsubscribeToken == token) ≠ [] := by
    intro hcon
    rw [hcon] at hr
    cases hr
  simp only [unsubscribe]
  rw [if_neg (by simpa [List.length_eq_zero] using hne2)]

/-- When no row carries the token, the handler sends the 404 page and the
UPDATE touches nothing. -/
theorem unsubscribe_unmatched_eq (store : List Subscriber) (token : String)
    (h : ∀ r ∈ store, r.unsubscribeToken ≠ token) :
    unsubscribe store token =
      (⟨404, false, "Invalid Unsubscribe Link"⟩, store) := by
  have hfil : store.filter (fun s => s.unsubscribeToken == token) = [] :=
    List.filter_eq_nil_iff.mpr (fun a ha => by simp [h a ha])
  have hmap : store.map (fun r =>
      if r.unsubscribeToken == token then { r with isActive := false }
      else r) = store :=
    map_eq_self_of_eq (fun a ha => by rw [if_neg (by simp [h a ha])])
  simp only [unsubscribe]
  rw [hfil, hmap]
  simp

/-! The claims. -/

/-- C1: when the normalized request email matches the unique stored record
for that address and the record is inactive, POST /api/subscribe answers
200 with the welcome-back message, the record is reactivated with a
refreshed subscription time (all other fields kept), and the store still
holds exactly one record for that email and keeps its length, so no second
record is created. -/
theorem C1_subscribe_reactivates (isEmail : String → Bool)
    (store : List Subscriber) (e ip ua : String) (now : Int) (ct ut : String)
    (nid : Nat) (ierr : Option String) (r : Subscriber)
    (hne : e ≠ "")
    (hval : validateEmail isEmail (sanitizeEmail e) = true)
    (hmem : r ∈ store) (hemail : r.email = sanitizeEmail e)
    (hact : r.isActive = false)
    (huniq : store.countP (fun s => s.email == sanitizeEmail e) = 1) :
    (subscribe isEmail store (some e) ip ua now ct ut nid ierr).1 =
      ⟨200, true, msgWelcomeBack⟩ ∧
    { r with isActive := true, subscribedAt := now } ∈
      (subscribe isEmail store (some e) ip ua now ct ut nid ierr).2 ∧
    (subscribe isEmail store (some e) ip ua now ct ut nid ierr).2.countP
      (fun s => s.email == sanitizeEmail e) = 1 ∧
    (subscribe isEmail store (some e) ip ua now ct ut nid ierr).2.length =
      store.length := by
  have hfind : store.find? (fun s => s.email == sanitizeEmail e) = some r :=
    find?_unique_mem hmem (by simp [hemail]) huniq
  rw [subscribe_reactivate_eq isEmail store e ip ua now ct ut nid ierr r hne
    hval hfind hact]
  refine ⟨rfl, ?_, ?_, by simp⟩
  · have hm :=
      List.mem_map_of_mem (reactivateRow (sanitizeEmail e) now) hmem
    rwa [reactivateRow_of_eq _ _ _ hemail] at hm
  · rw [List.countP_map]
    have hc : store.countP
        ((fun s => s.email == sanitizeEmail e) ∘
          reactivateRow (sanitizeEmail e) now) =
        store.countP (fun s => s.email == sanitizeEmail e) :=
      countP_ext (fun a ha => by
        simp only [Function.comp_apply]
        rw [(reactivateRow_fields (sanitizeEmail e) now a).2.1])
    rw [hc, huniq]

/-- C1 witness: the inactive fixture record is reactivated in place. -/
theorem C1_witness :
    (subscribe wIsEmail [wInactive] (some "a@b.com") "ip" "ua" 5 "ct" "ut" 2
      none).1 = ⟨200, true, msgWelcomeBack⟩ ∧
    { wInactive with isActive := true, subscribedAt := 5 } ∈
      (subscribe wIsEmail [wInactive] (some "a@b.com") "ip" "ua" 5 "ct" "ut" 2
        none).2 ∧
    (subscribe wIsEmail [wInactive] (some "a@b.com") "ip" "ua" 5 "ct" "ut" 2
      none).2.countP (fun s => s.email == sanitizeEmail "a@b.com") = 1 ∧
    (subscribe wIsEmail [wInactive] (some "a@b.com") "ip" "ua" 5 "ct" "ut" 2
      none).2.length = ([wInactive] : List Subscriber).length :=
  C1_subscribe_reactivates wIsEmail [wInactive] "a@b.com" "ip" "ua" 5 "ct"
    "ut" 2 none wInactive (by decide) (by decide) (by decide) (by decide)
    (by decide) (by decide)

/-- C2: when no stored record has the normalized email, POST /api/subscribe
answers 201 with the success message and the store afterwards is the old
store plus one new record carrying the normalized email, `isActive = true`,
`confirmed = false` and the freshly generated token pair. -/
theorem C2_subscribe_creates (isEmail : String → Bool)
    (store : List Subscriber) (e ip ua : String) (now : Int) (ct ut : String)
    (nid : Nat)
    (hne : e ≠ "")
    (hval : validateEmail isEmail (sanitizeEmail e) = true)
    (hnew : ∀ s ∈ store, s.email ≠ sanitizeEmail e) :
    (subscribe isEmail store (some e) ip ua now ct ut nid none).1 =
      ⟨201, true, msgThanks⟩ ∧
    (subscribe isEmail store (some e) ip ua now ct ut nid none).2 =
      store ++ [newSubscriber (sanitizeEmail e) ip ua now ct ut nid] ∧
    ∃ s ∈ (subscribe isEmail store (some e) ip ua now ct ut nid none).2,
      s.email = sanitizeEmail e ∧ s.isActive = true ∧ s.confirmed = false ∧
      s.confirmationToken = ct ∧ s.unsubscribeToken = ut ∧
      s.subscribedAt = now := by
  have hfind : store.find? (fun s => s.email == sanitizeEmail e) = none :=
    List.find?_eq_none.mpr (fun s hs => by simp [hnew s hs])
  rw [subscribe_insert_eq isEmail store e ip ua now ct ut nid hne hval hfind]
  exact ⟨rfl, rfl,
    ⟨newSubscriber (sanitizeEmail e) ip ua now ct ut nid,
      List.mem_append_right _ (List.mem_singleton.mpr rfl),
      rfl, rfl, rfl, rfl, rfl, rfl⟩⟩

/-- C2 witness: subscribing a fresh address on the empty store. -/
theorem C2_witness :
    (subscribe wIsEmail [] (some "a@b.com") "ip" "ua" 5 "ct" "ut" 1
      none).1 = ⟨201, true, msgThanks⟩ ∧
    (subscribe wIsEmail [] (some "a@b.com") "ip" "ua" 5 "ct" "ut" 1
      none).2 =
      [] ++ [newSubscriber (sanitizeEmail "a@b.com") "ip" "ua" 5 "ct" "ut"
        1] ∧
    ∃ s ∈ (subscribe wIsEmail [] (some "a@b.com") "ip" "ua" 5 "ct" "ut" 1
      none).2,
      s.email = sanitizeEmail "a@b.com" ∧ s.isActive = true ∧
      s.confirmed = false ∧ s.confirmationToken = "ct" ∧
      s.unsubscribeToken = "ut" ∧ s.subscribedAt = 5 :=
  C2_subscribe_creates wIsEmail [] "a@b.com" "ip" "ua" 5 "ct" "ut" 1
    (by decide) (by decide) (by intro s hs; cases hs)

/-- C3: when the normalized request email matches the unique stored record
for that address and the record is active, POST /api/subscribe answers 409
with the already-subscribed message and the whole store is unchanged. -/
theorem C3_subscribe_conflict (isEmail : String → Bool)
    (store : List Subscriber) (e ip ua : String) (now : Int) (ct ut : String)
    (nid : Nat) (ierr : Option String) (r : Subscriber)
    (hne : e ≠ "")
    (hval : validateEmail isEmail (sanitizeEmail e) = true)
    (hmem : r ∈ store) (hemail : r.email = sanitizeEmail e)
    (hact : r.isActive = true)
    (huniq : store.countP (fun s => s.email == sanitizeEmail e) = 1) :
    (subscribe isEmail store (some e) ip ua now ct ut nid ierr).1 =
      ⟨409, false, msgAlreadySubscribed⟩ ∧
    (subscribe isEmail store (some e) ip ua now ct ut nid ierr).2 =
      store := by
  have hfind : store.find? (fun s => s.email == sanitizeEmail e) = some r :=
    find?_unique_mem hmem (by simp [hemail]) huniq
  rw [subscribe_conflict_eq isEmail store e ip ua now ct ut nid ierr r hne
    hval hfind hact]
  exact ⟨rfl, rfl⟩

/-- C3 witness: resubscribing the active fixture record. -/
theorem C3_witness :
    (subscribe wIsEmail [wActive] (some "a@b.com") "ip" "ua" 5 "ct" "ut" 2
      none).1 = ⟨409, false, msgAlreadySubscribed⟩ ∧
    (subscribe wIsEmail [wActive] (some "a@b.com") "ip" "ua" 5 "ct" "ut" 2
      none).2 = [wActive] :=
  C3_subscribe_conflict wIsEmail [wActive] "a@b.com" "ip" "ua" 5 "ct" "ut" 2
    none wActive (by decide) (by decide) (by decide) (by decide) (by decide)
    (by decide)

/-- C4: when the INSERT of the check-then-insert sequence fails with the
unique-violation code 23505, the handler answers 409 (not 500) and the
store is unchanged. -/
theorem C4_insert_race_conflict (isEmail : String → Bool)
    (store : List Subscriber) (e ip ua : String) (now : Int) (ct ut : String)
    (nid : Nat)
    (hne : e ≠ "")
    (hval : validateEmail isEmail (sanitizeEmail e) = true)
    (hnew : ∀ s ∈ store, s.email ≠ sanitizeEmail e) :
    (subscribe isEmail store (some e) ip ua now ct ut nid
      (some "23505")).1.status = 409 ∧
    (subscribe isEmail store (some e) ip ua now ct ut nid
      (some "23505")).1.status ≠ 500 ∧
    (subscribe isEmail store (some e) ip ua now ct ut nid
      (some "23505")).2 = store := by
  have hfind : store.find? (fun s => s.email == sanitizeEmail e) = none :=
    List.find?_eq_none.mpr (fun s hs => by simp [hnew s hs])
  rw [subscribe_race_eq isEmail store e ip ua now ct ut nid hne hval hfind]
  exact ⟨rfl, by simp, rfl⟩

/-- C4 witness: the race on a fresh address over the empty store. -/
theorem C4_witness :
    (subscribe wIsEmail [] (some "a@b.com") "ip" "ua" 5 "ct" "ut" 1
      (some "23505")).1.status = 409 ∧
    (subscribe wIsEmail [] (some "a@b.com") "ip" "ua" 5 "ct" "ut" 1
      (some "23505")).1.status ≠ 500 ∧
    (subscribe wIsEmail [] (some "a@b.com") "ip" "ua" 5 "ct" "ut" 1
      (some "23505")).2 = [] :=
  C4_insert_race_conflict wIsEmail [] "a@b.com" "ip" "ua" 5 "ct" "ut" 1
    (by decide) (by decide) (by intro s hs; cases hs)

/-- C5: a request whose email is missing (absent field or empty string), or
whose normalized email fails the syntactic check or is longer than 255
characters, is answered 400 and the store is not touched. -/
theorem C5_subscribe_rejects_invalid (isEmail : String → Bool)
    (store : List Subscriber) (email : Option String) (ip ua : String)
    (now : Int) (ct ut : String) (nid : Nat) (ierr : Option String)
    (h : email = none ∨ email = some "" ∨
      ∃ e, email = some e ∧
        (isEmail (sanitizeEmail e) = false ∨
          255 < (sanitizeEmail e).length)) :
    (subscribe isEmail store email ip ua now ct ut nid ierr).1.status =
      400 ∧
    (subscribe isEmail store email ip ua now ct ut nid ierr).2 = store := by
  rcases h with h | h | ⟨e, he, hbad⟩
  · subst h
    rw [subscribe_missing_eq]
    exact ⟨rfl, rfl⟩
  · subst h
    rw [subscribe_empty_eq isEmail store "" ip ua now ct ut nid ierr rfl]
    exact ⟨rfl, rfl⟩
  · subst he
    by_cases hempty : e = ""
    · rw [subscribe_empty_eq isEmail store e ip ua now ct ut nid ierr hempty]
      exact ⟨rfl, rfl⟩
    · have hv : validateEmail isEmail (sanitizeEmail e) = false := by
        unfold validateEmail
        rcases hbad with hb | hb
        · simp [hb]
        · have hgt : ¬ ((sanitizeEmail e).length ≤ 255) := Nat.not_le.mpr hb
          simp [hgt]
      rw [subscribe_invalid_eq isEmail store e ip ua now ct ut nid ierr
        hempty hv]
      exact ⟨rfl, rfl⟩

/-- C5 witness: the address `not-an-email` is rejected on the singleton
store without touching it. -/
theorem C5_witness :
    (subscribe wIsEmail [wActive] (some "not-an-email") "ip" "ua" 5 "ct"
      "ut" 2 none).1.status = 400 ∧
    (subscribe wIsEmail [wActive] (some "not-an-email") "ip" "ua" 5 "ct"
      "ut" 2 none).2 = [wActive] :=
  C5_subscribe_rejects_invalid wIsEmail [wActive] (some "not-an-email")
    "ip" "ua" 5 "ct" "ut" 2 none
    (Or.inr (Or.inr ⟨"not-an-email", rfl, Or.inl (by decide)⟩))

/-- C6 counterexample: unsubscribing the active fixture record succeeds
and leaves the token stored; the claim predicts that the second request
with the same token matches zero rows and gets the 404 page, but the
UPDATE's WHERE clause tests only the token, so the second request still
matches one row and receives the 200 success page. -/
theorem C6_counterexample :
    (unsubscribe [wActive] "tok1").1.status = 200 ∧
    (unsubscribe [wActive] "tok1").2 = [wInactive] ∧
    ((unsubscribe [wActive] "tok1").2.filter
      (fun r => r.unsubscribeToken == "tok1")).length = 1 ∧
    (unsubscribe (unsubscribe [wActive] "tok1").2 "tok1").1.status = 200 ∧
    ¬ (unsubscribe (unsubscribe [wActive] "tok1").2 "tok1").1.status =
      404 := by decide

/-- C6 amended: after a successful unsubscribe the still-stored token still
matches the now-inactive record (the row is matched on the token alone,
regardless of isActive), so a second request with the same token receives
the 200 success page again — not 404 — and every record carrying the token
remains inactive. -/
theorem C6_second_unsubscribe_succeeds (store : List Subscriber)
    (token : String) (r : Subscriber) (hmem : r ∈ store)
    (htok : r.unsubscribeToken = token) :
    (unsubscribe store token).1 =
      ⟨200, true, "Successfully Unsubscribed"⟩ ∧
    ∀ s ∈ (unsubscribe store token).2, s.unsubscribeToken = token →
      s.isActive = false := by
  refine ⟨unsubscribe_matched_eq store token r hmem htok, ?_⟩
  intro s hs hstok
  rw [unsubscribe_store_eq] at hs
  rcases List.mem_map.mp hs with ⟨a, ha, hfa⟩
  by_cases hat : a.unsubscribeToken = token
  · rw [← hfa, if_pos (by simp [hat])]
  · rw [← hfa, if_neg (by simp [hat])] at hstok
    exact absurd hstok hat

/-- C6 witness: the second request on the already-deactivated fixture. -/
theorem C6_witness :
    (unsubscribe [wInactive] "tok1").1 =
      ⟨200, true, "Successfully Unsubscribed"⟩ ∧
    ∀ s ∈ (unsubscribe [wInactive] "tok1").2,
      s.unsubscribeToken = "tok1" → s.isActive = false :=
  C6_second_unsubscribe_succeeds [wInactive] "tok1" wInactive (by decide)
    (by decide)

/-- C7: a token carried by no stored record is answered with the 404 page
and the store is returned unchanged in its entirety. -/
theorem C7_unknown_token (store : List Subscriber) (token : String)
    (h : ∀ r ∈ store, r.unsubscribeToken ≠ token) :
    (unsubscribe store token).1 =
      ⟨404, false, "Invalid Unsubscribe Link"⟩ ∧
    (unsubscribe store token).2 = store := by
  rw [unsubscribe_unmatched_eq store token h]
  exact ⟨rfl, rfl⟩

/-- C7 witness: an unknown token against the singleton store. -/
theorem C7_witness :
    (unsubscribe [wActive] "nope").1 =
      ⟨404, false, "Invalid Unsubscribe Link"⟩ ∧
    (unsubscribe [wActive] "nope").2 = [wActive] :=
  C7_unknown_token [wActive] "nope" (by decide)

/-- Running the aggregate scan from any accumulator adds, per counter, the
count of remaining rows satisfying the corresponding FILTER clause. -/
theorem statsStep_foldl (d : Int) (l : List Subscriber) :
    ∀ acc : Stats,
      l.foldl (statsStep d) acc =
        ⟨acc.total_subscribers + l.length,
         acc.active_subscribers + l.countP (fun r => r.isActive),
         acc.confirmed_subscribers + l.countP (fun r => r.confirmed),
         acc.today_signups +
           l.countP (fun r => decide (d ≤ r.subscribedAt)),
         acc.week_signups +
           l.countP (fun r => decide (d - 7 ≤ r.subscribedAt)),
         acc.month_signups +
           l.countP (fun r => decide (d - 30 ≤ r.subscribedAt))⟩ := by
  induction l with
  | nil =>
    intro acc
    cases acc
    simp
  | cons a t ih =>
    intro acc
    rw [List.foldl_cons, ih]
    simp [statsStep, List.countP_cons, Nat.add_assoc, Nat.add_comm,
      Nat.add_left_comm]

/-- C8: the stats endpoint returns exactly the size of the table, the
number of active records, the number of confirmed records, and the numbers
of records subscribed on or after the current day, 7 days before it and 30
days before it; being a pure function of the store, it modifies nothing. -/
theorem C8_stats_counts (store : List Subscriber) (d : Int) :
    statsQuery store d =
      ⟨store.length,
       store.countP (fun r => r.isActive),
       store.countP (fun r => r.confirmed),
       store.countP (fun r => decide (d ≤ r.subscribedAt)),
       store.countP (fun r => decide (d - 7 ≤ r.subscribedAt)),
       store.countP (fun r => decide (d - 30 ≤ r.subscribedAt))⟩ := by
  unfold statsQuery
  rw [statsStep_foldl]
  simp

/-- Every row of the store survives POST /api/subscribe — on every path of
the handler — with its identity, email and unsubscribe token intact. -/
theorem subscribe_preserves_rows (isEmail : String → Bool)
    (store : List Subscriber) (email : Option String) (ip ua : String)
    (now : Int) (ct ut : String) (nid : Nat) (ierr : Option String) :
    ∀ r ∈ store,
      ∃ r2 ∈ (subscribe isEmail store email ip ua now ct ut nid ierr).2,
        r2.id = r.id ∧ r2.email = r.email ∧
        r2.unsubscribeToken = r.unsubscribeToken := by
  intro r hr
  cases email with
  | none =>
    exact ⟨r, hr, rfl, rfl, rfl⟩
  | some e =>
    by_cases he : e = ""
    · rw [subscribe_empty_eq isEmail store e ip ua now ct ut nid ierr he]
      exact ⟨r, hr, rfl, rfl, rfl⟩
    · by_cases hv : validateEmail isEmail (sanitizeEmail e) = false
      · rw [subscribe_invalid_eq isEmail store e ip ua now ct ut nid ierr
          he hv]
        exact ⟨r, hr, rfl, rfl, rfl⟩
      · have hv2 : validateEmail isEmail (sanitizeEmail e) = true := by
          revert hv
          cases validateEmail isEmail (sanitizeEmail e) <;> simp
        cases hfind : store.find? (fun s => s.email == sanitizeEmail e) with
        | some row =>
          by_cases ha : row.isActive = true
          · rw [subscribe_conflict_eq isEmail store e ip ua now ct ut nid
              ierr row he hv2 hfind ha]
            exact ⟨r, hr, rfl, rfl, rfl⟩
          · have ha2 : row.isActive = false := by
              revert ha
              cases row.isActive <;> simp
            rw [subscribe_reactivate_eq isEmail store e ip ua now ct ut nid
              ierr row he hv2 hfind ha2]
            exact ⟨reactivateRow (sanitizeEmail e) now r,
              List.mem_map_of_mem _ hr,
              (reactivateRow_fields _ _ r).1,
              (reactivateRow_fields _ _ r).2.1,
              (reactivateRow_fields _ _ r).2.2.2.2.2.2⟩
        | none =>
          cases ierr with
          | none =>
            rw [subscribe_insert_eq isEmail store e ip ua now ct ut nid he
              hv2 hfind]
            exact ⟨r, List.mem_append_left _ hr, rfl, rfl, rfl⟩
          | some code =>
            rw [subscribe_insert_err_eq isEmail store e ip ua now ct ut nid
              code he hv2 hfind]
            exact ⟨r, hr, rfl, rfl, rfl⟩

/-- Every row of the store survives GET /api/unsubscribe/:token with its
identity, email and unsubscribe token intact (the UPDATE only ever writes
`is_active`). -/
theorem unsubscribe_preserves_rows (store : List Subscriber)
    (token : String) :
    ∀ r ∈ store,
      ∃ r2 ∈ (unsubscribe store token).2,
        r2.id = r.id ∧ r2.email = r.email ∧
        r2.unsubscribeToken = r.unsubscribeToken := by
  intro r hr
  rw [unsubscribe_store_eq]
  refine ⟨if r.unsubscribeToken == token then { r with isActive := false }
      else r,
    List.mem_map_of_mem _ hr, ?_, ?_, ?_⟩ <;> split <;> rfl

/-- C9: the two mutating operations of the system preserve the store
invariants: neither POST /api/subscribe nor GET /api/unsubscribe/:token
ever deletes a record (every stored record survives, records are only
deactivated through `isActive`), and neither ever modifies a surviving
record's `email` or `unsubscribeToken` once assigned. -/
theorem C9_operations_preserve_records (isEmail : String → Bool)
    (store : List Subscriber) (email : Option String) (ip ua : String)
    (now : Int) (ct ut : String) (nid : Nat) (ierr : Option String)
    (token : String) :
    (∀ r ∈ store,
      ∃ r2 ∈ (subscribe isEmail store email ip ua now ct ut nid ierr).2,
        r2.id = r.id ∧ r2.email = r.email ∧
        r2.unsubscribeToken = r.unsubscribeToken) ∧
    (∀ r ∈ store,
      ∃ r2 ∈ (unsubscribe store token).2,
        r2.id = r.id ∧ r2.email = r.email ∧
        r2.unsubscribeToken = r.unsubscribeToken) :=
  ⟨subscribe_preserves_rows isEmail store email ip ua now ct ut nid ierr,
   unsubscribe_preserves_rows store token⟩

/-- C9 witness: the fixture record survives a subscribe of a different
address and its own unsubscribe, keeping id, email and token. -/
theorem C9_witness :
    (∃ r2 ∈ (subscribe wIsEmail [wActive] (some "c@d.com") "ip" "ua" 5 "ct"
        "ut" 2 none).2,
      r2.id = wActive.id ∧ r2.email = wActive.email ∧
      r2.unsubscribeToken = wActive.unsubscribeToken) ∧
    (∃ r2 ∈ (unsubscribe [wActive] "tok1").2,
      r2.id = wActive.id ∧ r2.email = wActive.email ∧
      r2.unsubscribeToken = wActive.unsubscribeToken) :=
  ⟨(C9_operations_preserve_records wIsEmail [wActive] (some "c@d.com") "ip"
      "ua" 5 "ct" "ut" 2 none "tok1").1 wActive (by decide),
   (C9_operations_preserve_records wIsEmail [wActive] (some "c@d.com") "ip"
      "ua" 5 "ct" "ut" 2 none "tok1").2 wActive (by decide)⟩

/-- C10: on the reactivation path (a record matches the normalized email
and is inactive) the resulting store has the same length and, row by row,
every column except `isActive` and `subscribedAt` keeps its previous
value; rows whose email differs from the normalized email are untouched,
and the matching row ends active with the fresh timestamp. -/
theorem C10_reactivation_frame (isEmail : String → Bool)
    (store store2 : List Subscriber) (e ip ua : String) (now : Int)
    (ct ut : String) (nid : Nat) (ierr : Option String) (r : Subscriber)
    (hne : e ≠ "")
    (hval : validateEmail isEmail (sanitizeEmail e) = true)
    (hfind : store.find? (fun s => s.email == sanitizeEmail e) = some r)
    (hact : r.isActive = false)
    (hstore2 :
      store2 = (subscribe isEmail store (some e) ip ua now ct ut nid
        ierr).2) :
    store2.length = store.length ∧
    ∀ i : Nat, ∀ hi : i < store.length, ∀ hi2 : i < store2.length,
      (store2.get ⟨i, hi2⟩).id = (store.get ⟨i, hi⟩).id ∧
      (store2.get ⟨i, hi2⟩).email = (store.get ⟨i, hi⟩).email ∧
      (store2.get ⟨i, hi2⟩).ipAddress = (store.get ⟨i, hi⟩).ipAddress ∧
      (store2.get ⟨i, hi2⟩).userAgent = (store.get ⟨i, hi⟩).userAgent ∧
      (store2.get ⟨i, hi2⟩).confirmed = (store.get ⟨i, hi⟩).confirmed ∧
      (store2.get ⟨i, hi2⟩).confirmationToken =
        (store.get ⟨i, hi⟩).confirmationToken ∧
      (store2.get ⟨i, hi2⟩).unsubscribeToken =
        (store.get ⟨i, hi⟩).unsubscribeToken ∧
      ((store.get ⟨i, hi⟩).email ≠ sanitizeEmail e →
        store2.get ⟨i, hi2⟩ = store.get ⟨i, hi⟩) ∧
      ((store.get ⟨i, hi⟩).email = sanitizeEmail e →
        (store2.get ⟨i, hi2⟩).isActive = true ∧
        (store2.get ⟨i, hi2⟩).subscribedAt = now) := by
  subst hstore2
  rw [subscribe_reactivate_eq isEmail store e ip ua now ct ut nid ierr r
    hne hval hfind hact]
  refine ⟨by simp, ?_⟩
  intro i hi hi2
  have hget :
      (store.map (reactivateRow (sanitizeEmail e) now)).get ⟨i, hi2⟩ =
        reactivateRow (sanitizeEmail e) now (store.get ⟨i, hi⟩) := by
    simp [List.get_eq_getElem, List.getElem_map]
  rw [hget]
  refine ⟨(reactivateRow_fields _ _ _).1,
    (reactivateRow_fields _ _ _).2.1,
    (reactivateRow_fields _ _ _).2.2.1,
    (reactivateRow_fields _ _ _).2.2.2.1,
    (reactivateRow_fields _ _ _).2.2.2.2.1,
    (reactivateRow_fields _ _ _).2.2.2.2.2.1,
    (reactivateRow_fields _ _ _).2.2.2.2.2.2, ?_, ?_⟩
  · intro hne2
    exact reactivateRow_of_ne _ _ _ hne2
  · intro heq
    rw [reactivateRow_of_eq _ _ _ heq]
    exact ⟨rfl, rfl⟩

/-- C10 witness: the frame theorem instantiated on the inactive fixture
(all hypotheses discharged on concrete input). -/
theorem C10_witness :
    (subscribe wIsEmail [wInactive] (some "a@b.com") "ip" "ua" 5 "ct" "ut"
      2 none).2.length = ([wInactive] : List Subscriber).length :=
  (C10_reactivation_frame wIsEmail [wInactive] _ "a@b.com" "ip" "ua" 5 "ct"
    "ut" 2 none wInactive (by decide) (by decide) (by decide) (by decide)
    rfl).1
